import Mathlib

/-!
Verification of `StorageObjectStorageQueue`
(src/Storages/ObjectStorageQueue/StorageObjectStorageQueue.cpp).

The development shallowly embeds the parts of the table engine that the
checked properties speak about:

* constructor path validation and normalization;
* the direct-SELECT guard in `read`;
* the background streaming tick `threadFunc`, dependency discovery
  `getDependencies`, and the poll-interval adjustment;
* the commit coordinator `commit` (blob deletion, fail-point, keeper multi);
* the ALTER settings pipeline (`normalizeSetting`, `isSettingChangeable`,
  `requiresDetachedMV`, duplicate detection, the per-setting loop of `alter`);
* the settings reconstruction `getSettings`.

Machine strings are embedded as `String` with character-level operations
phrased over `String.data` (the C++ code operates on byte/char level);
machine integers are embedded as `Nat` (all involved quantities are
unsigned counters and sizes that the code never overflows in the modelled
operations). Exceptions are embedded as `Except`-style results carrying
the thrown error code, and side effects of the stateful functions are
embedded as explicit event traces.
-/

deriving instance DecidableEq for Except

namespace ObjectStorageQueue

/-- Error codes from the `ErrorCodes` namespace used by the storage. -/
inductive ErrorCode
  | logicalError
  | badArguments
  | badQueryParameter
  | queryNotAllowed
  | supportDisabled
  | unknownException
  | keeperMultiException
  deriving DecidableEq, Repr

/-- `ObjectStorageQueueMode` : Ordered / Unordered. -/
inductive QueueMode
  | ordered
  | unordered
  deriving DecidableEq, Repr

/-- `ObjectStorageQueueAction` (the `after_processing` setting): Keep / Delete. -/
inductive QueueAction
  | keep
  | delete
  deriving DecidableEq, Repr

/-! ## Constructor path normalization (constructor, lines 211-222)

```cpp
if (configuration->getPath().empty())
    configuration->setPath("/*");
else if (configuration->getPath().ends_with('/'))
    configuration->setPath(configuration->getPath() + '*');
else if (!configuration->isPathWithGlobs())
    throw Exception(ErrorCodes::BAD_QUERY_PARAMETER,
        "ObjectStorageQueue url must either end with '/' or contain globs");
```

`isPathWithGlobs` is defined outside this translation unit; it is kept as a
boolean parameter (its value at the inputs used below is forced: an empty
string contains no glob characters). -/

/-- `std::string::ends_with('/')` on the configured path. -/
def pathEndsWithSlash (p : String) : Bool := p.data.getLast? == some '/'

/-- `std::string::empty()` on the configured path. -/
def pathIsEmpty (p : String) : Bool := p.data == []

/-- The path check and normalization performed by the
`StorageObjectStorageQueue` constructor. Returns the path stored by
`setPath`, or the thrown error code. -/
def normalizeQueuePath (path : String) (is_path_with_globs : Bool) :
    Except ErrorCode String :=
  if pathIsEmpty path then .ok "/*"
  else if pathEndsWithSlash path then .ok (path.push '*')
  else if !is_path_with_globs then .error .badQueryParameter
  else .ok path

/-! ## ALTER settings machinery (lines 699-998)

The per-name data: `changeable_settings_unordered_mode`,
`changeable_settings_ordered_mode`, `normalizeSetting`,
`checkNormalizedSetting`, `isSettingChangeable`, `requiresDetachedMV`,
and the settings part of `StorageObjectStorageQueue::alter`. -/

/-- The `changeable_settings_unordered_mode` set (lines 699-715). -/
def changeable_settings_unordered_mode : List String :=
  [ "processing_threads_num"
  , "loading_retries"
  , "after_processing"
  , "tracked_files_limit"
  , "tracked_file_ttl_sec"
  , "polling_min_timeout_ms"
  , "polling_max_timeout_ms"
  , "polling_backoff_ms"
  , "max_processed_files_before_commit"
  , "max_processed_rows_before_commit"
  , "max_processed_bytes_before_commit"
  , "max_processing_time_sec_before_commit"
  , "enable_hash_ring_filtering"
  , "list_objects_batch_size" ]

/-- The `changeable_settings_ordered_mode` set (lines 717-730). -/
def changeable_settings_ordered_mode : List String :=
  [ "loading_retries"
  , "after_processing"
  , "polling_min_timeout_ms"
  , "polling_max_timeout_ms"
  , "polling_backoff_ms"
  , "max_processed_files_before_commit"
  , "max_processed_rows_before_commit"
  , "max_processed_bytes_before_commit"
  , "max_processing_time_sec_before_commit"
  , "buckets"
  , "list_objects_batch_size" ]

/-- `name.starts_with("s3queue_")`, phrased over the character list so that
it evaluates in the kernel. -/
def isS3queuePrefixed (name : String) : Bool :=
  name.data.take 8 == "s3queue_".data

/-- `normalizeSetting` (lines 732-738): strip one leading `s3queue_`. -/
def normalizeSetting (name : String) : String :=
  if isS3queuePrefixed name then name.drop 8 else name

/-- The structured errors thrown by the ALTER settings path. Each carries
the data interpolated into the thrown message. -/
inductive AlterError
  | notNormalized (name : String)
  | duplicated (name : String)
  | notChangeable (name : String) (mode : QueueMode)
  | detachedRequired (name : String) (dependencies_count : Nat)
  deriving DecidableEq, Repr

/-- The `ErrorCodes` value of each ALTER error: `checkNormalizedSetting`
throws `LOGICAL_ERROR`, the duplicate checks throw `BAD_ARGUMENTS`, and
both the non-changeable-setting and the attached-dependencies checks throw
`SUPPORT_IS_DISABLED`. -/
def AlterError.code : AlterError → ErrorCode
  | .notNormalized _ => .logicalError
  | .duplicated _ => .badArguments
  | .notChangeable _ _ => .supportDisabled
  | .detachedRequired _ _ => .supportDisabled

/-- Printed name of the mode (`magic_enum::enum_name`). -/
def QueueMode.enumName : QueueMode → String
  | .ordered => "ORDERED"
  | .unordered => "UNORDERED"

/-- The message of each ALTER error, as formatted at the throw sites
(lines 743, 888/925, 941-944, 952-956). -/
def AlterError.message : AlterError → String
  | .notNormalized n => "Setting is not normalized: " ++ n
  | .duplicated n => "Setting " ++ n ++ " is duplicated"
  | .notChangeable n m =>
      "Changing setting " ++ n ++ " is not allowed for " ++ m.enumName ++ " mode"
  | .detachedRequired n c =>
      "Changing setting " ++ n ++ " is not allowed only with detached dependencies "
        ++ "(dependencies count: " ++ toString c ++ ")"

/-- `checkNormalizedSetting` (lines 740-744). -/
def checkNormalizedSetting (name : String) : Except AlterError Unit :=
  if isS3queuePrefixed name then .error (.notNormalized name)
  else .ok ()

/-- `isSettingChangeable` (lines 746-754). -/
def isSettingChangeable (name : String) (mode : QueueMode) : Except AlterError Bool :=
  match checkNormalizedSetting name with
  | .error e => .error e
  | .ok _ =>
    if mode = QueueMode.unordered then
      .ok (changeable_settings_unordered_mode.contains name)
    else
      .ok (changeable_settings_ordered_mode.contains name)

/-- `requiresDetachedMV` (lines 756-760). -/
def requiresDetachedMV (name : String) : Except AlterError Bool :=
  match checkNormalizedSetting name with
  | .error e => .error e
  | .ok _ => .ok (name == "buckets")

/-- A `SettingChange`: name and (serialized) value. -/
structure SettingChange where
  name : String
  value : String
  deriving DecidableEq, Repr

/-- The `get_names` lambda of `alter` (lines 881-891): collect the setting
names, throwing `BAD_ARGUMENTS` on a duplicate (`std::set::insert`
failure). The accumulator holds the names already seen. -/
def get_names : List SettingChange → List String → Except AlterError (List String)
  | [], seen => .ok seen
  | s :: rest, seen =>
    if seen.contains s.name then .error (.duplicated s.name)
    else get_names rest (s.name :: seen)

/-- `setting_changed` as computed in the `alter` loop (lines 927-935):
changed when the name is absent from the old settings or the old value
differs. -/
def settingChanged (old_settings : Option (List SettingChange)) (s : SettingChange) : Bool :=
  match old_settings with
  | none => true
  | some olds =>
    match olds.find? (fun c => c.name == s.name) with
    | none => true
    | some c => c.value != s.value

/-- The per-setting loop of `alter` (lines 919-961): duplicate check
against `new_settings_set`, the `setting_changed` test, the
`isSettingChangeable` gate, the `requiresDetachedMV` gate against the
current dependency count, and accumulation of `changed_settings`. -/
def processNewSettings (mode : QueueMode) (old_settings : Option (List SettingChange))
    (dependencies_count : Nat) :
    List SettingChange → List String → List SettingChange →
    Except AlterError (List SettingChange)
  | [], _, changed => .ok changed
  | s :: rest, seen, changed =>
    if seen.contains s.name then .error (.duplicated s.name)
    else if !settingChanged old_settings s then
      processNewSettings mode old_settings dependencies_count rest (s.name :: seen) changed
    else
      match isSettingChangeable s.name mode with
      | .error e => .error e
      | .ok changeable =>
        if !changeable then .error (.notChangeable s.name mode)
        else
          match requiresDetachedMV s.name with
          | .error e => .error e
          | .ok requires_detached =>
            if requires_detached ∧ dependencies_count ≠ 0 then
              .error (.detachedRequired s.name dependencies_count)
            else
              processNewSettings mode old_settings dependencies_count rest
                (s.name :: seen) (changed ++ [s])

/-- The settings part of `StorageObjectStorageQueue::alter`
(lines 860-961), after `normalizeAlterCommands` and
`AlterCommands::apply`: `old_settings` is the (already normalized) content
of the old metadata's settings changes (absent when the metadata had
none), `new_settings` the (already normalized) settings list produced by
applying the commands. When old settings exist, both lists pass the
duplicate check of `get_names`, reset settings (old names absent from the
new list) are re-appended with their defaults, and then the per-setting
loop runs. Returns `changed_settings` or the first thrown error. -/
def alterQueueSettings (mode : QueueMode) (old_settings : Option (List SettingChange))
    (new_settings : List SettingChange) (default_value : String → String)
    (dependencies_count : Nat) : Except AlterError (List SettingChange) :=
  match old_settings with
  | none => processNewSettings mode none dependencies_count new_settings [] []
  | some olds =>
    match get_names olds [] with
    | .error e => .error e
    | .ok old_names =>
      match get_names new_settings [] with
      | .error e => .error e
      | .ok new_names =>
        let reset_settings :=
          (old_names.filter (fun n => !new_names.contains n)).insertionSort (· ≤ ·)
        let full_new_settings :=
          new_settings ++ reset_settings.map (fun n => ⟨n, default_value n⟩)
        processNewSettings mode (some olds) dependencies_count full_new_settings [] []

/-! ## Commit coordinator (`commit`, lines 645-697)

The per-worker `prepareCommitRequests` lives in `ObjectStorageQueueSource`
(outside this translation unit); each source is therefore embedded as the
keeper requests and successful objects it appends. `commit`'s side
effects are embedded as an event trace, its thrown exception as an
optional error code. -/

/-- The contribution of one `ObjectStorageQueueSource` to
`prepareCommitRequests`: the appended keeper requests (abstract ids) and
the appended successful-object paths. -/
structure SourceCommitData where
  requests : List String
  successful_objects : List String
  deriving DecidableEq, Repr

/-- Observable side effects of `commit`, in order of occurrence:
`removeObjectsIfExist` on the blob store, `tryMulti` on the keeper, and
the `finalizeCommit` calls on the sources. -/
inductive CommitEvent
  | removedObjects (objects : List String)
  | multiIssued (num_requests : Nat)
  | finalized
  deriving DecidableEq, Repr

/-- `StorageObjectStorageQueue::commit`: gather requests and successful
objects from the sources; if the requests are empty, return; if the
successful objects are non-empty and `after_processing` is Delete, remove
them from the blob store; then (after the
`object_storage_queue_fail_commit` fail-point, which throws
`unknownException` when enabled) issue the keeper multi transaction,
throwing `keeperMultiException` if it does not return OK, and finalize the
sources on success. Returns the event trace and the thrown error, if
any. -/
def commit (sources : List SourceCommitData) (after_processing : QueueAction)
    (fail_commit_enabled : Bool) (multi_ok : Bool) :
    List CommitEvent × Option ErrorCode :=
  let requests := (sources.map SourceCommitData.requests).flatten
  let successful_objects := (sources.map SourceCommitData.successful_objects).flatten
  if requests.isEmpty then ([], none)
  else
    let pre : List CommitEvent :=
      if successful_objects ≠ [] ∧ after_processing = QueueAction.delete then
        [.removedObjects successful_objects]
      else []
    if fail_commit_enabled then (pre, some .unknownException)
    else if !multi_ok then
      (pre ++ [.multiIssued requests.length], some .keeperMultiException)
    else
      (pre ++ [.multiIssued requests.length, .finalized], none)

/-! ## Dependency discovery and the background tick
(`getDependencies`, lines 460-485; `threadFunc`, lines 487-547) -/

/-- One dependent view as seen by `getDependencies`: whether
`tryGetTable` resolves it, whether it is a `StorageMaterializedView`, and
whether `tryGetTargetTable` resolves its target. -/
structure ViewDep where
  table_exists : Bool
  is_materialized_view : Bool
  has_target_table : Bool
  deriving DecidableEq, Repr

/-- The per-view readiness test inside the `getDependencies` loop: the
view resolves, and when it is a materialized view its target table
resolves. -/
def dependencyOk (v : ViewDep) : Bool :=
  v.table_exists && (!v.is_materialized_view || v.has_target_table)

/-- `StorageObjectStorageQueue::getDependencies`: 0 when there are no
dependent views or any of them fails the readiness test, otherwise the
number of dependent views. -/
def getDependencies (view_ids : List ViewDep) : Nat :=
  if view_ids.isEmpty then 0
  else if view_ids.all dependencyOk then view_ids.length
  else 0

/-- Modelled from the spec: "Discover downstream consumers: dependent
views that are materialized AND have a resolvable target table." Used
only to compare the spec's wording of C4 with `getDependencies`. -/
def specDownstreamConsumers (view_ids : List ViewDep) : List ViewDep :=
  view_ids.filter (fun v => v.is_materialized_view && v.has_target_table)

/-- `streamToViews`' return value (line 642): whether any row was
processed this cycle. -/
def streamToViewsReturn (total_rows : Nat) : Bool := total_rows != 0

/-- Observable actions of one `threadFunc` tick, in order:
`registerIfNot` of the active replica, invocation of `streamToViews`,
the `catch` of an escaped exception, `task->scheduleAfter`, and the
`unregister` performed when the interval exceeds 5000 ms. -/
inductive TickEvent
  | registeredReplica
  | streamInvoked
  | caughtException
  | scheduled (ms : Nat)
  | unregisteredReplica
  deriving DecidableEq, Repr

/-- `StorageObjectStorageQueue::threadFunc`. Inputs: the shutdown flag as
observed at entry and at the final check, the dependent views, the
outcome of `streamToViews` (`.ok total_rows`, or `.error ()` when an
exception escapes the streaming cycle), the polling settings and the
current reschedule interval. Returns the event trace of the tick and the
new reschedule interval: reset to `polling_min_timeout_ms` when a row was
processed, `min(polling_max_timeout_ms, interval + polling_backoff_ms)`
when none was, unchanged when the tick streamed nothing or threw. -/
def threadFunc (shutdown_at_entry shutdown_at_end : Bool)
    (view_ids : List ViewDep) (stream_outcome : Except Unit Nat)
    (polling_min_timeout_ms polling_max_timeout_ms polling_backoff_ms : Nat)
    (reschedule_processing_interval_ms : Nat) : List TickEvent × Nat :=
  if shutdown_at_entry then ([], reschedule_processing_interval_ms)
  else
    let dependencies_count := getDependencies view_ids
    let (events, interval) :=
      if dependencies_count ≠ 0 then
        match stream_outcome with
        | .ok total_rows =>
          if streamToViewsReturn total_rows then
            ([.registeredReplica, .streamInvoked], polling_min_timeout_ms)
          else
            ([.registeredReplica, .streamInvoked],
             min polling_max_timeout_ms
               (reschedule_processing_interval_ms + polling_backoff_ms))
        | .error _ =>
          ([.registeredReplica, .streamInvoked, .caughtException],
           reschedule_processing_interval_ms)
      else ([], reschedule_processing_interval_ms)
    if shutdown_at_end then (events, interval)
    else
      (events ++ [.scheduled interval]
        ++ (if interval > 5000 then [.unregisteredReplica] else []),
       interval)

/-! ## Direct SELECT guard (`read`, lines 379-389) -/

/-- The guard at the top of `StorageObjectStorageQueue::read`:
refuse unless `stream_like_engine_allow_direct_select` is set, and refuse
while a materialized view is attached. -/
def readCheck (allow_direct_select mv_attached : Bool) : Except ErrorCode Unit :=
  if !allow_direct_select then .error .queryNotAllowed
  else if mv_attached then .error .queryNotAllowed
  else .ok ()

/-- The mode-dependent set of runtime-changeable settings
(`changeable_settings_unordered_mode` for Unordered,
`changeable_settings_ordered_mode` for Ordered). -/
def changeableSet (mode : QueueMode) : List String :=
  match mode with
  | .unordered => changeable_settings_unordered_mode
  | .ordered => changeable_settings_ordered_mode

/-! ## Settings reconstruction (`getSettings`, lines 1035-1069) -/

/-- The `ObjectStorageQueueTableMetadata` fields read by `getSettings`. -/
structure TableMetadata where
  mode : QueueMode
  after_processing : QueueAction
  loading_retries : Nat
  processing_threads_num : Nat
  last_processed_path : String
  tracked_files_ttl_sec : Nat
  tracked_files_limit : Nat
  buckets : Nat
  deriving DecidableEq, Repr

/-- The `CommitSettings` struct of the engine. -/
structure CommitSettings where
  max_processed_files_before_commit : Nat
  max_processed_rows_before_commit : Nat
  max_processed_bytes_before_commit : Nat
  max_processing_time_sec_before_commit : Nat
  deriving DecidableEq, Repr

/-- The engine-local fields read by `getSettings` (the mutex-guarded
mutable ones together with `zk_path` and the logging flag). -/
structure EngineLocalState where
  enable_logging_to_queue_log : Bool
  zk_path : String
  polling_min_timeout_ms : Nat
  polling_max_timeout_ms : Nat
  polling_backoff_ms : Nat
  commit_settings : CommitSettings
  enable_hash_ring_filtering : Bool
  list_objects_batch_size : Nat
  deriving DecidableEq, Repr

/-- The `ObjectStorageQueueSettings` record as filled by `getSettings`. -/
structure QueueSettingsRecord where
  mode : QueueMode
  after_processing : QueueAction
  keeper_path : String
  loading_retries : Nat
  processing_threads_num : Nat
  enable_logging_to_queue_log : Bool
  last_processed_path : String
  tracked_file_ttl_sec : Nat
  tracked_files_limit : Nat
  cleanup_interval_min_ms : Nat
  cleanup_interval_max_ms : Nat
  buckets : Nat
  polling_min_timeout_ms : Nat
  polling_max_timeout_ms : Nat
  polling_backoff_ms : Nat
  max_processed_files_before_commit : Nat
  max_processed_rows_before_commit : Nat
  max_processed_bytes_before_commit : Nat
  max_processing_time_sec_before_commit : Nat
  enable_hash_ring_filtering : Bool
  list_objects_batch_size : Nat
  deriving DecidableEq, Repr

/-- `StorageObjectStorageQueue::getSettings`: reconstruct the settings
from the table metadata and the engine-local state. The cleanup intervals
are not retained anywhere the engine can read back (they were moved into
the metadata object at construction), and are filled with literal 0. -/
def getSettings (table_metadata : TableMetadata) (engine : EngineLocalState) :
    QueueSettingsRecord :=
  { mode := table_metadata.mode
  , after_processing := table_metadata.after_processing
  , keeper_path := engine.zk_path
  , loading_retries := table_metadata.loading_retries
  , processing_threads_num := table_metadata.processing_threads_num
  , enable_logging_to_queue_log := engine.enable_logging_to_queue_log
  , last_processed_path := table_metadata.last_processed_path
  , tracked_file_ttl_sec := table_metadata.tracked_files_ttl_sec
  , tracked_files_limit := table_metadata.tracked_files_limit
  , cleanup_interval_min_ms := 0
  , cleanup_interval_max_ms := 0
  , buckets := table_metadata.buckets
  , polling_min_timeout_ms := engine.polling_min_timeout_ms
  , polling_max_timeout_ms := engine.polling_max_timeout_ms
  , polling_backoff_ms := engine.polling_backoff_ms
  , max_processed_files_before_commit :=
      engine.commit_settings.max_processed_files_before_commit
  , max_processed_rows_before_commit :=
      engine.commit_settings.max_processed_rows_before_commit
  , max_processed_bytes_before_commit :=
      engine.commit_settings.max_processed_bytes_before_commit
  , max_processing_time_sec_before_commit :=
      engine.commit_settings.max_processing_time_sec_before_commit
  , enable_hash_ring_filtering := engine.enable_hash_ring_filtering
  , list_objects_batch_size := engine.list_objects_batch_size }

end ObjectStorageQueue

namespace ObjectStorageQueue

/-- C7: Direct SELECT is refused with `queryNotAllowed` when
`stream_like_engine_allow_direct_select` is unset; even when it is set, it
is refused with `queryNotAllowed` while a materialized view is attached;
otherwise the read proceeds. -/
theorem read_refusal_spec :
    ∀ mv : Bool, readCheck false mv = .error .queryNotAllowed ∧
    readCheck true true = .error .queryNotAllowed ∧
    readCheck true false = .ok () := by
  intro mv
  refine ⟨rfl, rfl, rfl⟩

/-- C6 counterexample: the empty configured path neither ends with `'/'`
nor contains globs, yet construction does not fail: the path is silently
set to `"/*"`. -/
theorem empty_path_not_rejected :
    pathEndsWithSlash "" = false ∧
    normalizeQueuePath "" false = .ok "/*" := by
  constructor
  · rfl
  · rfl

/-- C6 (amended): a non-empty path that neither ends with `'/'` nor
contains globs is rejected with `badQueryParameter`; a path ending with
`'/'` is normalized by appending `'*'`; an empty path is normalized to
`"/*"`. -/
theorem path_validation_spec (p : String) :
    (pathIsEmpty p = false → pathEndsWithSlash p = false →
      normalizeQueuePath p false = .error .badQueryParameter) ∧
    (pathEndsWithSlash p = true →
      normalizeQueuePath p false = .ok (p.push '*')) ∧
    (pathIsEmpty p = true →
      normalizeQueuePath p false = .ok "/*") := by
  refine ⟨?_, ?_, ?_⟩
  · intro hne hns
    simp [normalizeQueuePath, hne, hns]
  · intro hs
    simp [normalizeQueuePath, hs]
    intro he
    simp [pathIsEmpty, pathEndsWithSlash] at hs he
    simp [he] at hs
  · intro he
    simp [normalizeQueuePath, he]

/-- Witness for `path_validation_spec` at concrete paths `"data"`,
`"data/"` and `""`. -/
theorem path_validation_spec_witness :
    normalizeQueuePath "data" false = .error .badQueryParameter ∧
    normalizeQueuePath "data/" false = .ok "data/*" ∧
    normalizeQueuePath "" false = .ok "/*" :=
  ⟨(path_validation_spec "data").1 (by decide) (by decide),
   by
    have h := (path_validation_spec "data/").2.1 (by decide)
    simpa using h,
   (path_validation_spec "").2.2 (by decide)⟩

/-- C2 counterexample: a doubly-prefixed setting name
(`s3queue_s3queue_processing_threads_num`) normalizes to a name that still
carries the `s3queue_` prefix; altering it fails with `logicalError`
("Setting is not normalized"), not with `supportDisabled` as the claim
states for every non-mutable setting. -/
theorem alter_double_prefix_not_supportDisabled :
    normalizeSetting "s3queue_s3queue_processing_threads_num"
      = "s3queue_processing_threads_num" ∧
    alterQueueSettings .unordered none
      [⟨normalizeSetting "s3queue_s3queue_processing_threads_num", "4"⟩]
      (fun _ => "") 0
      = .error (.notNormalized "s3queue_processing_threads_num") ∧
    (AlterError.notNormalized "s3queue_processing_threads_num").code
      = .logicalError ∧
    (AlterError.notNormalized "s3queue_processing_threads_num").code
      ≠ .supportDisabled := by
  refine ⟨by decide, by decide, by decide, by decide⟩

/-- C2 (amended): for an alter of a single (already normalized) changed
setting, the alter succeeds exactly when the name belongs to the
mode-dependent changeable set (`changeable_settings_unordered_mode` in
Unordered mode, `changeable_settings_ordered_mode` in Ordered mode);
otherwise it fails with the `supportDisabled`-coded non-changeable error.
Doubly-prefixed names, whose normalized form still begins with
`s3queue_`, instead fail with `logicalError`. -/
theorem alter_changeable_setting_spec (mode : QueueMode) (n v : String)
    (d : String → String) (hn : isS3queuePrefixed n = false) :
    alterQueueSettings mode none [⟨n, v⟩] d 0 =
      (if n ∈ changeableSet mode then .ok [⟨n, v⟩]
       else .error (.notChangeable n mode)) ∧
    (AlterError.notChangeable n mode).code = .supportDisabled := by
  refine ⟨?_, rfl⟩
  cases mode <;>
    simp only [alterQueueSettings, processNewSettings, settingChanged,
      isSettingChangeable, requiresDetachedMV, checkNormalizedSetting, hn,
      changeableSet, List.contains, List.elem_eq_mem] <;>
    by_cases hmem : n ∈ changeable_settings_ordered_mode <;>
    by_cases hmem' : n ∈ changeable_settings_unordered_mode <;>
    simp [hmem, hmem', processNewSettings]

/-- Witness for `alter_changeable_setting_spec`: `processing_threads_num`
is changeable in Unordered mode but not in Ordered mode. -/
theorem alter_changeable_setting_spec_witness :
    alterQueueSettings .unordered none [⟨"processing_threads_num", "4"⟩]
      (fun _ => "") 0 = .ok [⟨"processing_threads_num", "4"⟩] ∧
    alterQueueSettings .ordered none [⟨"processing_threads_num", "4"⟩]
      (fun _ => "") 0
      = .error (.notChangeable "processing_threads_num" .ordered) := by
  constructor
  · have h := (alter_changeable_setting_spec .unordered "processing_threads_num"
      "4" (fun _ => "") (by decide)).1
    rw [h]
    decide
  · have h := (alter_changeable_setting_spec .ordered "processing_threads_num"
      "4" (fun _ => "") (by decide)).1
    rw [h]
    decide

/-- C8 counterexample: in Unordered mode, altering `buckets` with one
attached dependent view fails with the non-changeable-setting error (whose
message names the setting and the mode), not with the
detached-dependencies error naming the dependency count. -/
theorem alter_buckets_unordered_counterexample :
    alterQueueSettings .unordered none [⟨"buckets", "8"⟩] (fun _ => "") 1
      = .error (.notChangeable "buckets" .unordered) ∧
    AlterError.notChangeable "buckets" .unordered
      ≠ AlterError.detachedRequired "buckets" 1 ∧
    (AlterError.notChangeable "buckets" .unordered).message
      ≠ (AlterError.detachedRequired "buckets" 1).message := by
  refine ⟨by decide, by decide, by decide⟩

/-- C8 (amended): `buckets` is the only setting for which
`requiresDetachedMV` holds. In Ordered mode (where `buckets` is
changeable), altering it while the dependency count is non-zero fails with
the `supportDisabled`-coded detached-dependencies error whose message
names the setting and the dependency count. In Unordered mode such an
alter also fails with a `supportDisabled`-coded error, but it is the
non-changeable-setting error, which names the mode instead of the count. -/
theorem alter_buckets_requires_detached (v : String) (d : String → String)
    (deps : Nat) (hdeps : deps ≠ 0) :
    (∀ n : String, isS3queuePrefixed n = false →
      (requiresDetachedMV n = .ok true ↔ n = "buckets")) ∧
    alterQueueSettings .ordered none [⟨"buckets", v⟩] d deps
      = .error (.detachedRequired "buckets" deps) ∧
    (AlterError.detachedRequired "buckets" deps).code = .supportDisabled ∧
    (AlterError.detachedRequired "buckets" deps).message
      = "Changing setting " ++ "buckets"
          ++ " is not allowed only with detached dependencies "
          ++ "(dependencies count: " ++ toString deps ++ ")" ∧
    alterQueueSettings .unordered none [⟨"buckets", v⟩] d deps
      = .error (.notChangeable "buckets" .unordered) := by
  refine ⟨?_, ?_, rfl, rfl, ?_⟩
  · intro n hn
    simp [requiresDetachedMV, checkNormalizedSetting, hn]
  · simp [alterQueueSettings, processNewSettings, settingChanged,
      isSettingChangeable, requiresDetachedMV, checkNormalizedSetting, hdeps,
      show isS3queuePrefixed "buckets" = false from by decide,
      show "buckets" ∈ changeable_settings_ordered_mode from by decide]
  · simp [alterQueueSettings, processNewSettings, settingChanged,
      isSettingChangeable, requiresDetachedMV, checkNormalizedSetting,
      show isS3queuePrefixed "buckets" = false from by decide,
      show "buckets" ∉ changeable_settings_unordered_mode from by decide]

/-- Witness for `alter_buckets_requires_detached` at dependency count 1. -/
theorem alter_buckets_requires_detached_witness :
    alterQueueSettings .ordered none [⟨"buckets", "8"⟩] (fun _ => "") 1
      = .error (.detachedRequired "buckets" 1) ∧
    alterQueueSettings .unordered none [⟨"buckets", "8"⟩] (fun _ => "") 1
      = .error (.notChangeable "buckets" .unordered) := by
  have h := alter_buckets_requires_detached "8" (fun _ => "") 1 (by decide)
  exact ⟨h.2.1, h.2.2.2.2⟩

/-- Unfolding equation of `get_names` on a cons cell. -/
theorem get_names_cons (s : SettingChange) (rest : List SettingChange)
    (acc : List String) :
    get_names (s :: rest) acc =
      if acc.contains s.name then .error (.duplicated s.name)
      else get_names rest (s.name :: acc) := rfl

/-- If some element of `l` has its name already in the accumulator,
`get_names` fails with a duplicate error. -/
theorem get_names_error_of_mem_acc (l : List SettingChange) :
    ∀ acc : List String, (∃ s ∈ l, s.name ∈ acc) →
    ∃ m, get_names l acc = .error (.duplicated m) := by
  induction l with
  | nil =>
    intro acc h
    rcases h with ⟨s, hs, _⟩
    simp at hs
  | cons s rest ih =>
    intro acc h
    by_cases hc : acc.contains s.name = true
    · exact ⟨s.name, by rw [get_names_cons, if_pos hc]⟩
    · rcases h with ⟨t, ht, hacc⟩
      rcases List.mem_cons.mp ht with rfl | ht'
      · exact absurd (by simp [List.elem_eq_mem, hacc]) hc
      · rcases ih (s.name :: acc) ⟨t, ht', List.mem_cons_of_mem _ hacc⟩ with ⟨m, hm⟩
        exact ⟨m, by rw [get_names_cons, if_neg hc, hm]⟩

/-- A duplicated name in the list makes `get_names` fail with a duplicate
error, whatever the accumulator. -/
theorem get_names_error_of_dup (l : List SettingChange) :
    ∀ acc : List String, ¬ (l.map SettingChange.name).Nodup →
    ∃ m, get_names l acc = .error (.duplicated m) := by
  induction l with
  | nil =>
    intro acc h
    exact absurd List.nodup_nil h
  | cons s rest ih =>
    intro acc h
    by_cases hc : acc.contains s.name = true
    · exact ⟨s.name, by rw [get_names_cons, if_pos hc]⟩
    · have h' : s.name ∈ rest.map SettingChange.name ∨
          ¬ (rest.map SettingChange.name).Nodup := by
        by_contra hn
        push_neg at hn
        exact h (List.nodup_cons.mpr ⟨hn.1, hn.2⟩)
      rcases h' with hmem | hnd
      · rcases List.mem_map.mp hmem with ⟨t, ht, hname⟩
        rcases get_names_error_of_mem_acc rest (s.name :: acc)
          ⟨t, ht, by simp [hname]⟩ with ⟨m, hm⟩
        exact ⟨m, by rw [get_names_cons, if_neg hc, hm]⟩
      · rcases ih (s.name :: acc) hnd with ⟨m, hm⟩
        exact ⟨m, by rw [get_names_cons, if_neg hc, hm]⟩

/-- If the names in `l` are distinct and none of them is in the
accumulator, `get_names` succeeds. -/
theorem get_names_ok_of_nodup (l : List SettingChange) :
    ∀ acc : List String, (l.map SettingChange.name ++ acc).Nodup →
    ∃ names, get_names l acc = .ok names := by
  induction l with
  | nil => exact fun acc _ => ⟨acc, rfl⟩
  | cons s rest ih =>
    intro acc h
    have h1 : (s.name :: (rest.map SettingChange.name ++ acc)).Nodup := by
      simpa using h
    have hs : s.name ∉ acc := fun hmem =>
      (List.nodup_cons.mp h1).1 (List.mem_append_right _ hmem)
    have hc : ¬ acc.contains s.name = true := by
      simp [List.elem_eq_mem, hs]
    have h' : (rest.map SettingChange.name ++ s.name :: acc).Nodup :=
      List.nodup_middle.mpr h1
    rcases ih (s.name :: acc) h' with ⟨names, hn⟩
    exact ⟨names, by rw [get_names_cons, if_neg hc, hn]⟩

/-- C9 counterexample: altering with `loading_retries` given twice fails
with the duplicate-setting error, whose error code is `badArguments`
(`BAD_ARGUMENTS` at the throw sites), not `logicalError` as the claim's
taxonomy states. -/
theorem alter_duplicate_not_logicalError :
    alterQueueSettings .unordered (some [])
      [⟨"loading_retries", "1"⟩, ⟨"loading_retries", "2"⟩] (fun _ => "") 0
      = .error (.duplicated "loading_retries") ∧
    (AlterError.duplicated "loading_retries").code = .badArguments ∧
    (AlterError.duplicated "loading_retries").code ≠ .logicalError := by
  refine ⟨by decide, by decide, by decide⟩

/-- C9 (amended): an alter in which the same (normalized) setting name
appears twice in the applied new settings fails — when the old metadata
settings are duplicate-free, with the duplicate-setting error, whose
error code is `badArguments` (not `logicalError`). -/
theorem alter_duplicate_setting_fails (mode : QueueMode)
    (olds news : List SettingChange) (d : String → String) (deps : Nat)
    (hold : (olds.map SettingChange.name).Nodup)
    (hdup : ¬ (news.map SettingChange.name).Nodup) :
    ∃ m, alterQueueSettings mode (some olds) news d deps
        = .error (.duplicated m) ∧
      (AlterError.duplicated m).code = .badArguments := by
  rcases get_names_ok_of_nodup olds [] (by simpa using hold) with ⟨old_names, hok⟩
  rcases get_names_error_of_dup news [] hdup with ⟨m, herr⟩
  exact ⟨m, by simp [alterQueueSettings, hok, herr], rfl⟩

/-- Witness for `alter_duplicate_setting_fails` at a concrete duplicated
alter. -/
theorem alter_duplicate_setting_fails_witness :
    alterQueueSettings .unordered (some [⟨"after_processing", "keep"⟩])
      [⟨"loading_retries", "1"⟩, ⟨"loading_retries", "2"⟩] (fun _ => "") 0
      = .error (.duplicated "loading_retries") ∧
    (AlterError.duplicated "loading_retries").code = .badArguments := by
  have h := alter_duplicate_setting_fails .unordered
    [⟨"after_processing", "keep"⟩]
    [⟨"loading_retries", "1"⟩, ⟨"loading_retries", "2"⟩]
    (fun _ => "") 0 (by decide) (by decide)
  rcases h with ⟨m, hm, hc⟩
  have : m = "loading_retries" := by
    have heval : alterQueueSettings .unordered (some [⟨"after_processing", "keep"⟩])
        [⟨"loading_retries", "1"⟩, ⟨"loading_retries", "2"⟩] (fun _ => "") 0
        = .error (.duplicated "loading_retries") := by decide
    have := hm.symm.trans heval
    simpa using this
  subst this
  exact ⟨hm, hc⟩

/-- C1: if the requests gathered from the sources are empty, `commit`
returns without issuing the keeper multi transaction and without deleting
any blob-store object (empty event trace, no exception); otherwise, when
the gathered successful objects are non-empty and `after_processing` is
Delete, every issue of the multi transaction in the trace is strictly
preceded by the blob-store deletion of those objects — the multi is never
the first event. -/
theorem commit_ordering_spec (sources : List SourceCommitData)
    (after : QueueAction) (fp mok : Bool) :
    ((sources.map SourceCommitData.requests).flatten = [] →
      commit sources after fp mok = ([], none)) ∧
    ((sources.map SourceCommitData.requests).flatten ≠ [] →
      (sources.map SourceCommitData.successful_objects).flatten ≠ [] →
      after = QueueAction.delete →
      ∀ pre n post, (commit sources after fp mok).1
          = pre ++ CommitEvent.multiIssued n :: post →
        CommitEvent.removedObjects
          ((sources.map SourceCommitData.successful_objects).flatten) ∈ pre) := by
  constructor
  · intro h
    simp [commit, h]
  · intro hreq hobj hafter
    subst hafter
    intro pre n post h
    rw [commit] at h
    simp only [List.isEmpty_eq_true, hreq, if_false, hobj, ne_eq,
      not_false_iff, true_and, if_true] at h
    rcases fp with _ | _ <;> rcases mok with _ | _ <;>
      simp only [Bool.false_eq_true, if_false, if_true, Bool.not_false,
        Bool.not_true] at h <;>
      rcases pre with _ | ⟨a, _ | ⟨b, _ | ⟨c, pre'⟩⟩⟩ <;>
      simp_all

/-- Witness for `commit_ordering_spec`: a source with one request and one
successful object, Delete mode, fail-point off, multi OK: the trace is
deletion, multi, finalize, and the deletion precedes the multi. -/
theorem commit_ordering_spec_witness :
    commit [⟨[], []⟩] QueueAction.delete false true = ([], none) ∧
    CommitEvent.removedObjects ["obj1"] ∈ [CommitEvent.removedObjects ["obj1"]] ∧
    (commit [⟨["req1"], ["obj1"]⟩] QueueAction.delete false true).1
      = [CommitEvent.removedObjects ["obj1"]]
        ++ CommitEvent.multiIssued 1 :: [CommitEvent.finalized] := by
  refine ⟨(commit_ordering_spec [⟨[], []⟩] QueueAction.delete false true).1
    (by decide), ?_, by decide⟩
  exact (commit_ordering_spec [⟨["req1"], ["obj1"]⟩] QueueAction.delete false true).2
    (by decide) (by decide) rfl
    [CommitEvent.removedObjects ["obj1"]] 1 [CommitEvent.finalized] (by decide)

/-- C5: with the `object_storage_queue_fail_commit` fail-point enabled and
non-empty requests, `commit` throws `unknownException` and the multi
transaction is never issued; and when an exception escapes the streaming
cycle, `threadFunc` catches it and — the shutdown flag being unset —
reschedules the task after the current (unchanged) reschedule interval. -/
theorem failpoint_commit_spec (sources : List SourceCommitData)
    (after : QueueAction) (mok : Bool) (view_ids : List ViewDep)
    (pmin pmax backoff st : Nat) :
    ((sources.map SourceCommitData.requests).flatten ≠ [] →
      (commit sources after true mok).2 = some .unknownException ∧
      ∀ n, CommitEvent.multiIssued n ∉ (commit sources after true mok).1) ∧
    (getDependencies view_ids ≠ 0 →
      TickEvent.caughtException
          ∈ (threadFunc false false view_ids (.error ()) pmin pmax backoff st).1 ∧
      TickEvent.scheduled st
          ∈ (threadFunc false false view_ids (.error ()) pmin pmax backoff st).1 ∧
      (threadFunc false false view_ids (.error ()) pmin pmax backoff st).2 = st) := by
  constructor
  · intro hreq
    constructor
    · simp [commit, hreq]
    · intro n
      rw [commit]
      simp only [List.isEmpty_eq_true, hreq, if_false]
      by_cases hcond : (sources.map SourceCommitData.successful_objects).flatten ≠ []
          ∧ after = QueueAction.delete <;>
        simp [hcond]
  · intro hdeps
    refine ⟨?_, ?_, ?_⟩ <;>
      by_cases h5 : st > 5000 <;>
      simp [threadFunc, hdeps, h5]

/-- Witness for `failpoint_commit_spec` at a concrete source and a single
healthy materialized view. -/
theorem failpoint_commit_spec_witness :
    (commit [⟨["req1"], ["obj1"]⟩] QueueAction.delete true true).2
      = some .unknownException ∧
    (CommitEvent.multiIssued 1
      ∉ (commit [⟨["req1"], ["obj1"]⟩] QueueAction.delete true true).1) ∧
    TickEvent.caughtException
      ∈ (threadFunc false false [⟨true, true, true⟩] (.error ()) 10 100 5 20).1 ∧
    (threadFunc false false [⟨true, true, true⟩] (.error ()) 10 100 5 20).2 = 20 := by
  have h := failpoint_commit_spec [⟨["req1"], ["obj1"]⟩] QueueAction.delete true
    [⟨true, true, true⟩] 10 100 5 20
  exact ⟨(h.1 (by decide)).1, (h.1 (by decide)).2 1,
    (h.2 (by decide)).1, (h.2 (by decide)).2.2⟩

/-- C3: on a tick that streams (dependencies attached, no shutdown), if
any row was processed (`streamToViews` returned true because
`total_rows > 0`) the reschedule interval is reset to
`polling_min_timeout_ms`; otherwise it becomes
`min(polling_max_timeout_ms, previous + polling_backoff_ms)` — it grows by
the backoff whenever that stays within the maximum, and never exceeds the
maximum. -/
theorem poll_interval_adjustment_spec (se : Bool) (view_ids : List ViewDep)
    (pmin pmax backoff st total_rows : Nat)
    (hdeps : getDependencies view_ids ≠ 0) :
    (total_rows > 0 →
      (threadFunc false se view_ids (.ok total_rows) pmin pmax backoff st).2
        = pmin) ∧
    (threadFunc false se view_ids (.ok 0) pmin pmax backoff st).2
      = min pmax (st + backoff) ∧
    (threadFunc false se view_ids (.ok 0) pmin pmax backoff st).2 ≤ pmax ∧
    (st + backoff ≤ pmax →
      (threadFunc false se view_ids (.ok 0) pmin pmax backoff st).2
        = st + backoff) := by
  have hzero : streamToViewsReturn 0 = false := by decide
  refine ⟨?_, ?_, ?_, ?_⟩
  · intro hrows
    have hr : streamToViewsReturn total_rows = true := by
      simp [streamToViewsReturn, Nat.pos_iff_ne_zero.mp hrows]
    cases se <;> simp [threadFunc, hdeps, hr]
  · cases se <;> simp [threadFunc, hdeps, hzero]
  · cases se <;> simp [threadFunc, hdeps, hzero, Nat.min_le_left]
  · intro hle
    cases se <;> simp [threadFunc, hdeps, hzero, Nat.min_eq_right hle]

/-- Witness for `poll_interval_adjustment_spec`: one healthy materialized
view; 7 rows processed resets the interval to 10; zero rows with interval
20, backoff 5, maximum 100 gives 25. -/
theorem poll_interval_adjustment_spec_witness :
    (threadFunc false false [⟨true, true, true⟩] (.ok 7) 10 100 5 20).2 = 10 ∧
    (threadFunc false false [⟨true, true, true⟩] (.ok 0) 10 100 5 20).2 = 25 := by
  have h := poll_interval_adjustment_spec false [⟨true, true, true⟩]
    10 100 5 20 0 (by decide)
  exact ⟨(poll_interval_adjustment_spec false [⟨true, true, true⟩]
    10 100 5 20 7 (by decide)).1 (by decide), h.2.2.2 (by decide)⟩

/-- C4 counterexample: a single attached dependent view that is not a
materialized view. The spec-worded set of downstream consumers
(materialized views with a resolvable target) is empty, so per the claim
the tick should be skipped; but `getDependencies` counts the view (returns
1) and the tick registers the replica and invokes `streamToViews`. -/
theorem dependency_discovery_counterexample :
    specDownstreamConsumers [⟨true, false, false⟩] = [] ∧
    getDependencies [⟨true, false, false⟩] = 1 ∧
    TickEvent.streamInvoked
      ∈ (threadFunc false false [⟨true, false, false⟩] (.ok 0) 10 100 5 10).1 ∧
    TickEvent.registeredReplica
      ∈ (threadFunc false false [⟨true, false, false⟩] (.ok 0) 10 100 5 10).1 := by
  refine ⟨by decide, by decide, by decide, by decide⟩

/-- C4 (amended): the tick proceeds exactly when there is at least one
dependent view and every dependent view resolves (and, when it is a
materialized view, has a resolvable target table); `getDependencies` then
returns the count of all dependent views — not only the materialized ones
— and returning 0 is the skip condition: the tick registers no replica,
does not invoke `streamToViews`, and leaves the reschedule interval
unchanged. -/
theorem dependency_skip_spec (view_ids : List ViewDep) (se : Bool)
    (stream_outcome : Except Unit Nat) (pmin pmax backoff st : Nat) :
    (getDependencies view_ids ≠ 0 ↔
      view_ids ≠ [] ∧ ∀ v ∈ view_ids, dependencyOk v = true) ∧
    (getDependencies view_ids ≠ 0 →
      getDependencies view_ids = view_ids.length) ∧
    (getDependencies view_ids = 0 →
      TickEvent.registeredReplica
          ∉ (threadFunc false se view_ids stream_outcome pmin pmax backoff st).1 ∧
      TickEvent.streamInvoked
          ∉ (threadFunc false se view_ids stream_outcome pmin pmax backoff st).1 ∧
      (threadFunc false se view_ids stream_outcome pmin pmax backoff st).2
        = st) := by
  refine ⟨?_, ?_, ?_⟩
  · cases view_ids with
    | nil => simp [getDependencies]
    | cons v rest =>
      constructor
      · intro hne
        by_cases hall : (v :: rest).all dependencyOk = true
        · exact ⟨List.cons_ne_nil v rest, List.all_eq_true.mp hall⟩
        · exact absurd (by rw [getDependencies]; simp [hall]) hne
      · rintro ⟨-, hfor⟩
        rw [getDependencies]
        simp [List.all_eq_true.mpr hfor]
  · intro h
    rw [getDependencies] at h ⊢
    by_cases he : view_ids.isEmpty = true
    · simp [he] at h
    · simp only [he, if_false] at h ⊢
      by_cases hall : view_ids.all dependencyOk = true
      · simp [hall]
      · simp [hall] at h
  · intro h
    refine ⟨?_, ?_, ?_⟩ <;>
      by_cases h5 : st > 5000 <;>
      cases se <;>
      simp [threadFunc, h, h5]

/-- Witness for `dependency_skip_spec`: a healthy materialized view makes
the tick proceed; an empty dependency list skips it. -/
theorem dependency_skip_spec_witness :
    (getDependencies [⟨true, true, true⟩] ≠ 0) ∧
    getDependencies [⟨true, true, true⟩] = 1 ∧
    TickEvent.streamInvoked
      ∉ (threadFunc false false [] (.ok 9) 10 100 5 20).1 ∧
    (threadFunc false false [] (.ok 9) 10 100 5 20).2 = 20 := by
  have h1 := (dependency_skip_spec [⟨true, true, true⟩] false (.ok 9)
    10 100 5 20).1.mpr (by decide)
  have h2 := (dependency_skip_spec [⟨true, true, true⟩] false (.ok 9)
    10 100 5 20).2.1 h1
  have h3 := (dependency_skip_spec [] false (.ok 9) 10 100 5 20).2.2 (by decide)
  exact ⟨h1, h2, h3.2.1, h3.2.2⟩

/-- C10: `getSettings` reconstructs the settings from table metadata and
engine-local state, but reports `cleanup_interval_min_ms = 0` and
`cleanup_interval_max_ms = 0` whatever state the table is in — the
create-time cleanup intervals are not observable through `getSettings`,
while every other reported field does come from the metadata or the
engine state. -/
theorem getSettings_cleanup_intervals_zero (table_metadata : TableMetadata)
    (engine : EngineLocalState) :
    (getSettings table_metadata engine).cleanup_interval_min_ms = 0 ∧
    (getSettings table_metadata engine).cleanup_interval_max_ms = 0 ∧
    (getSettings table_metadata engine).mode = table_metadata.mode ∧
    (getSettings table_metadata engine).after_processing
      = table_metadata.after_processing ∧
    (getSettings table_metadata engine).polling_min_timeout_ms
      = engine.polling_min_timeout_ms := by
  refine ⟨rfl, rfl, rfl, rfl, rfl⟩

end ObjectStorageQueue
